import Mathlib

/-!
Shallow embedding of src/SGF.py (HermanHiddema/sgfparser), an SGF parser
written for Python 2 (the source uses the name `unicode` and imports
print_function from __future__).

Reading of the source. The file contains several slips that we embed under
their evident reading, documented here once:

* lines 224, 236 and 280 lack the colon of an if/def statement; we embed the
  evident statement.
* lines 210 and 224 read the bare name `properties`, and lines 258-276 the
  bare name `valuetypes`; Python method bodies do not see class attributes
  by bare name, so we embed the evident referents: the class attribute
  `SGFParser.properties` (the schema table, lines 36-43) and the class
  attribute `SGFParser.valuetypes` (the tuple on line 290, whose entry is
  spelled with a capital T as simpleText, so the lowercase test on line 276
  is always false).
* line 278 is an unterminated expression inside the (dead) simpletext
  branch; that branch is embedded as a distinguished brokenSource error and
  is provably unreachable.
* line 280 reads a bare truthy string literal as the if condition, so that
  branch always runs; its body decodes the value (a no-op for the only
  charset ever active, ISO-8859-1: parseNode never updates self.charset)
  and the function then falls off its end, returning Python None.
* mixed-type comparisons on line 195 (the chained range test on self.ff,
  which may hold a string or None) follow Python 2 ordering: None is
  smaller than everything, and any number is smaller than any string.
* int(...) and float(...) are modelled on finite decimal literals (optional
  surrounding whitespace, sign, digits, fraction, exponent); float special
  values (inf/nan) and binary rounding are not modelled - the parser only
  ever compares these values against the integers 1 and 4.
* print calls (verbosity logging) are I/O and are dropped; the verbosity
  guards around them have no other effect.

Python ints are unbounded, so they are embedded as Int; floats as
rationals. Raised exceptions are embedded as the error side of Except;
the two declared exception classes SGFParseError and SGFValidationError
become the parseError and validationError constructors, and runtime crashes
of the interpreter (such as re.match applied to None) become typeError.
Input text is a list of characters and the cursor self.pos a natural
number. Loops (while statements) become fuel-indexed recursive functions;
fuel exhaustion is the distinguished outOfFuel error, and the top-level
parse supplies fuel 2 * length + 8, ample for the bounded call depth of
this grammar.
-/

namespace SGF

/-- Python regex class \s on an ASCII str: space, tab, newline, carriage
return, vertical tab, form feed. Used by space_re (line 31). -/
def isSpaceCh (c : Char) : Bool :=
  c = ' ' || c = '\t' || c = '\n' || c = '\r' || c = '\x0b' || c = '\x0c'

/-- Class [A-Z] of ff4_propid_re (line 29). -/
def isUpperCh (c : Char) : Bool := 'A' ≤ c && c ≤ 'Z'

def isLowerCh (c : Char) : Bool := 'a' ≤ c && c ≤ 'z'

/-- Class [A-Za-z] of old_propid_re (line 30). -/
def isLetterCh (c : Char) : Bool := isUpperCh c || isLowerCh c

/-- Which of the two identifier regexes self.propid_re currently holds:
old_propid_re ([A-Za-z]+, legacy) or ff4_propid_re ([A-Z]+, strict). -/
inductive PidMode where
  | legacy
  | strict
deriving DecidableEq

/-- The character class of the active identifier regex. Matching either
regex against a one-character string succeeds iff the character is in its
class. -/
def pidClass : PidMode → Char → Bool
  | .legacy, c => isLetterCh c
  | .strict, c => isUpperCh c

/-- Value of a nonempty decimal digit run. -/
def digitsVal (l : List Char) : ℕ :=
  l.foldl (fun a c => 10 * a + (c.toNat - '0'.toNat)) 0

def isDigitCh (c : Char) : Bool := '0' ≤ c && c ≤ '9'

/-- Strip leading and trailing Python whitespace, as int() and float() do. -/
def stripPy (l : List Char) : List Char :=
  ((l.dropWhile isSpaceCh).reverse.dropWhile isSpaceCh).reverse

/-- Python int(str) after stripping: optional sign, then a nonempty digit
run, base 10; anything else raises ValueError (here: returns none). -/
def pyIntCore : List Char → Option ℤ
  | '+' :: ds =>
    if !ds.isEmpty && ds.all isDigitCh then some ((digitsVal ds : ℤ)) else Option.none
  | '-' :: ds =>
    if !ds.isEmpty && ds.all isDigitCh then some (-(digitsVal ds : ℤ)) else Option.none
  | ds =>
    if !ds.isEmpty && ds.all isDigitCh then some ((digitsVal ds : ℤ)) else Option.none

/-- Python int(str) on a character list. -/
def pyInt (l : List Char) : Option ℤ := pyIntCore (stripPy l)

/-- Split an optional leading sign; the Bool is true for a minus sign. -/
def splitSign : List Char → Bool × List Char
  | '+' :: r => (false, r)
  | '-' :: r => (true, r)
  | r => (false, r)

/-- Split a float literal at the first exponent marker e or E. -/
def splitAtExp : List Char → List Char × Option (List Char)
  | [] => ([], Option.none)
  | c :: r =>
    if c = 'e' || c = 'E' then ([], some r)
    else
      let p := splitAtExp r
      (c :: p.1, p.2)

/-- Mantissa of a float literal: digits, optionally a dot and more digits,
at least one digit overall. -/
def parseMantissa (m : List Char) : Option ℚ :=
  let ip := m.takeWhile isDigitCh
  match m.dropWhile isDigitCh with
  | [] => if ip.isEmpty then Option.none else some ((digitsVal ip : ℚ))
  | '.' :: fp =>
    if fp.all isDigitCh && (!ip.isEmpty || !fp.isEmpty) then
      some ((digitsVal ip : ℚ) + (digitsVal fp : ℚ) / ((10 : ℚ) ^ fp.length))
    else Option.none
  | _ => Option.none

/-- Exponent part of a float literal: optional sign, nonempty digit run. -/
def parseExpPart (l : List Char) : Option ℤ :=
  let s := splitSign l
  if !s.2.isEmpty && s.2.all isDigitCh then
    some (if s.1 then -(digitsVal s.2 : ℤ) else (digitsVal s.2 : ℤ))
  else Option.none

/-- Python float(str) on finite decimal literals (see the header note). -/
def pyFloat (l : List Char) : Option ℚ :=
  let t := stripPy l
  let sg := splitSign t
  let me := splitAtExp sg.2
  match parseMantissa me.1 with
  | Option.none => Option.none
  | some q =>
    match me.2 with
    | Option.none => some (if sg.1 then -q else q)
    | some ex =>
      match parseExpPart ex with
      | Option.none => Option.none
      | some e =>
        let qe := q * (10 : ℚ) ^ e
        some (if sg.1 then -qe else qe)

/-- A value as returned by parsePropValue: a Python int, float, str, or
None (the implicit return when the function falls off its end). -/
inductive PyVal where
  | int (n : ℤ)
  | float (q : ℚ)
  | str (s : String)
  | pyNone
deriving DecidableEq

/-- Python 2 comparison 1 <= v, the left half of the chained range test on
line 195. Ints and floats compare numerically; any number is smaller than
any str in Python 2 (types are ordered by type name); None is smaller than
everything. -/
def pyGeOne : PyVal → Bool
  | .int n => decide (1 ≤ n)
  | .float q => decide (1 ≤ q)
  | .str _ => true
  | .pyNone => false

/-- Python 2 comparison v <= 4, the right half of the chained range test
on line 195. -/
def pyLeFour : PyVal → Bool
  | .int n => decide (n ≤ 4)
  | .float q => decide (q ≤ 4)
  | .str _ => false
  | .pyNone => true

/-- Python equality self.ff == 4 (line 197): true for the int 4 and for
the float 4.0, false across other types. -/
def pyEqFour : PyVal → Bool
  | .int n => decide (n = 4)
  | .float q => decide (q = 4)
  | .str _ => false
  | .pyNone => false

/-- The mutable session attributes of the live SGFParser object: self.gm,
self.ff, self.charset, self.propid_re (set in parseCollection lines
120-123, mutated in parseNode lines 192-200). gm and ff hold whatever
parsePropValue returned, hence PyVal. -/
structure Session where
  gm : PyVal
  ff : PyVal
  charset : String
  propid_re : PidMode
deriving DecidableEq

/-- The defaults assigned at the top of each parseCollection loop
iteration (lines 120-123). -/
def defaultSession : Session :=
  ⟨PyVal.int 1, PyVal.int 1, "ISO-8859-1", PidMode.legacy⟩

/-- The mutable parser state threaded through each call: the cursor
self.pos and the session attributes. self.data is immutable during one
parse call and is passed separately. -/
structure St where
  pos : ℕ
  sess : Session
deriving DecidableEq

/-- Outcomes that abort a parse: the two declared exception classes, a
Python-runtime crash (TypeError), the embedding of the syntactically
broken dead branch, and fuel exhaustion of the embedding. -/
inductive PErr where
  | parseError (pos : ℕ) (expected : String) (found : Option Char) (ctx : List Char)
  | validationError (pos : ℕ) (reason : String) (ctx : List Char)
  | typeError (msg : String)
  | brokenSource (msg : String)
  | outOfFuel
deriving DecidableEq

/-- Longest run of characters of a class at an exact offset (how a Python
regex class+ matches at a position). -/
def runLen (p : Char → Bool) (data : List Char) (pos : ℕ) : ℕ :=
  ((data.drop pos).takeWhile p).length

/-- space_re matching at self.pos followed by the advance in nextToken
(lines 107-109): skip a maximal whitespace run. -/
def skipWs (data : List Char) (pos : ℕ) : ℕ :=
  pos + runLen isSpaceCh data pos

def charAt (data : List Char) (pos : ℕ) : Option Char :=
  data[pos]?

/-- nextToken (lines 104-110): skip whitespace (mutating self.pos), then
return the character at the new cursor, or None at end of data. -/
def nextToken (data : List Char) (st : St) : Option Char × St :=
  let p := skipWs data st.pos
  (charAt data p, { st with pos := p })

/-- context (lines 112-114): data[max(0, pos-10) : min(pos+10, len)]. -/
def context (data : List Char) (pos : ℕ) : List Char :=
  (data.take (min (pos + 10) data.length)).drop (pos - 10)

/-- Body of value_re (line 28) after the opening bracket: repeated
(backslash + any char | any char other than backslash and close bracket),
then the closing bracket. Returns the inner text (escapes untouched, as
group(0)[1:-1] keeps them) and the number of characters consumed including
the closing bracket. The regex is deterministic: the starred group can
never consume an unescaped close bracket, so the match ends at the first
unescaped one. -/
def valueBody : List Char → Option (List Char × ℕ)
  | [] => Option.none
  | ']' :: _ => some ([], 1)
  | '\\' :: [] => Option.none
  | '\\' :: c :: rest =>
    (valueBody rest).map (fun p => ('\\' :: c :: p.1, p.2 + 2))
  | c :: rest =>
    (valueBody rest).map (fun p => (c :: p.1, p.2 + 1))

/-- value_re.match(self.data, self.pos) (line 250): an opening bracket at
the exact offset, then the body. Returns inner text and total match
length. -/
def valueMatch (data : List Char) (pos : ℕ) : Option (List Char × ℕ) :=
  match data.drop pos with
  | '[' :: rest => (valueBody rest).map (fun p => (p.1, p.2 + 1))
  | _ => Option.none

/-- One entry of the class attribute `properties` (lines 36-43). -/
structure PropSchema where
  type : String
  valuetype : List String
deriving DecidableEq

/-- The class attribute `properties` (lines 36-43): the static property
schema table. Dict sets become lists; membership tests are unaffected. -/
def properties : String → Option PropSchema := fun pid =>
  if pid = "AP" then some ⟨"root", ["compose simpletext:simpletext"]⟩
  else if pid = "CA" then some ⟨"root", ["simpletext"]⟩
  else if pid = "FF" then some ⟨"root", ["number"]⟩
  else if pid = "GM" then some ⟨"root", ["number"]⟩
  else if pid = "ST" then some ⟨"root", ["number"]⟩
  else if pid = "SZ" then some ⟨"root", ["number", "compose number:number"]⟩
  else Option.none

/-- The class attribute `valuetypes` (line 290), the evident referent of
the bare name `valuetypes` in parsePropValue - note the capital T of
simpleText, which makes the lowercase membership test of line 276 false. -/
def classValuetypes : List String :=
  ["none", "number", "real", "double", "color", "simpleText", "text", "point", "move", "stone"]

/-- The identity embedding of unicode(value, self.charset): self.charset is
never changed from ISO-8859-1 (parseNode handles only FF and GM), and an
ISO-8859-1 decode never fails and maps each byte to the code point we
already hold. -/
def pyUnicode (v : List Char) (_charset : String) : List Char := v

/-- A node, the dictionary built by parseNode: identifier to value. We keep
insertion order; parseNode forbids duplicate keys, so lookup agrees with
the Python dict. -/
abbrev Node := List (String × PyVal)

/-- Dict lookup on a node. -/
def lookupN : Node → String → Option PyVal
  | [], _ => Option.none
  | (k, v) :: r, key => if k = key then some v else lookupN r key

/-- A game tree as parseGameTree returns it (lines 157-160): the Python
1-tuple (seq,) when no subtrees were parsed, the 2-tuple (seq, subtrees)
otherwise. -/
inductive GameTree where
  | seqOnly (seq : List Node)
  | withSubs (seq : List Node) (subtrees : List GameTree)

/-- True for the 2-tuple form of a returned game tree. -/
def GameTree.isPair : GameTree → Bool
  | .seqOnly _ => false
  | .withSubs _ _ => true

/-- parsePropValue (lines 246-287), called by parseProperty with the
property identifier where a value-type tuple was evidently meant (line
219); the argument is wrapped (lines 255-257) and then never consulted -
every membership test reads the class attribute valuetypes instead. -/
def parsePropValue (data : List Char) (vtypes : String) (st : St) :
    Except PErr (PyVal × St) :=
  let _ := vtypes
  let tok := (nextToken data st).1
  let st1 := (nextToken data st).2
  if tok ≠ some '[' then
    -- line 249: raise SGFParseError(self.pos, open bracket, self.nextToken, self.context)
    let tok2 := (nextToken data st1).1
    let st2 := (nextToken data st1).2
    .error (.parseError st1.pos ("[") tok2 (context data st2.pos))
  else
    match valueMatch data st1.pos with
    | some vm =>
      let value := vm.1
      let st2 : St := { st1 with pos := st1.pos + vm.2 }
      -- lines 258-261: the none kind accepts exactly the empty text and
      -- returns the raw (empty) str
      if classValuetypes.contains "none" && value.isEmpty then
        .ok (.str (String.mk value), st2)
      else
        -- lines 262-266: number
        match (if classValuetypes.contains "number" then pyInt value else Option.none) with
        | some n => .ok (.int n, st2)
        | Option.none =>
          -- lines 267-271: real
          match (if classValuetypes.contains "real" then pyFloat value else Option.none) with
          | some q => .ok (.float q, st2)
          | Option.none =>
            -- lines 272-273: double
            if classValuetypes.contains "double" && (value = ['1'] || value = ['2']) then
              .ok (.int (if value = ['1'] then 1 else 2), st2)
            -- lines 274-275: color returns the raw str
            else if classValuetypes.contains "color" && (value = ['B'] || value = ['W']) then
              .ok (.str (String.mk value), st2)
            -- line 276: always false, since the class tuple spells simpleText
            else if classValuetypes.contains "simpletext" then
              .error (.brokenSource ("line 278 of the source is an unterminated expression"))
            else
              -- lines 280-281: the condition is a truthy literal, so this
              -- always runs; the decoded value is dropped and the
              -- function falls off its end, returning Python None
              let _ := pyUnicode value st2.sess.charset
              .ok (.pyNone, st2)
    | Option.none =>
      -- lines 284-287: no unescaped close bracket before end of data.
      -- self.pos = len(self.data) - 1, then the raise evaluates its
      -- arguments left to right: self.pos first, then self.nextToken
      -- (which may skip whitespace), then self.context at the moved pos.
      let st2 : St := { st1 with pos := data.length - 1 }
      let p := st2.pos
      let tok2 := (nextToken data st2).1
      let st3 := (nextToken data st2).2
      .error (.parseError p ("]") tok2 (context data st3.pos))

/-- The while loop of parsePropValueList (lines 236-244): the body never
appends to propvalues and the function never returns it, so the guard
`nextToken == open bracket or not propvalues` stays true until
parsePropValue raises; if the loop could exit, the function would fall off
its end and return Python None. -/
def parsePropValueListLoop :
    ℕ → List Char → String → List PyVal → St → Except PErr (PyVal × St)
  | 0, _, _, _, _ => .error .outOfFuel
  | fuel + 1, data, valuetypes, propvalues, st =>
    let tok := (nextToken data st).1
    let st1 := (nextToken data st).2
    if tok = some '[' || propvalues.isEmpty then
      match parsePropValue data valuetypes st1 with
      | .error e => .error e
      | .ok r => parsePropValueListLoop fuel data valuetypes propvalues r.2
    else
      .ok (.pyNone, st1)

/-- parsePropValueList (lines 236-244). -/
def parsePropValueList (fuel : ℕ) (data : List Char) (valuetypes : String)
    (st : St) : Except PErr (PyVal × St) :=
  parsePropValueListLoop fuel data valuetypes [] st

/-- parsePropIdent (lines 228-234): longest run of the active identifier
class at the exact cursor (no whitespace skip before the match); on
failure the raise evaluates self.pos first, then self.nextToken (which
skips whitespace), then self.context. The matched run is uppercased by
filtering out non-uppercase characters (line 233). -/
def parsePropIdent (data : List Char) (st : St) :
    Except PErr (String × St) :=
  let n := runLen (pidClass st.sess.propid_re) data st.pos
  if n = 0 then
    let tok2 := (nextToken data st).1
    let st2 := (nextToken data st).2
    .error (.parseError st.pos ("[A-Z]") tok2 (context data st2.pos))
  else
    let matched := (data.drop st.pos).take n
    let propident := String.mk (matched.filter isUpperCh)
    .ok (propident, { st with pos := st.pos + n })

/-- parseProperty (lines 203-226): parse the identifier; unknown
identifiers, and known ones whose value-type set contains "list" (none
do), go through parsePropValueList, the rest through parsePropValue; then
line 224 (read with its missing colon restored, and the bare name
`properties` as the schema table): a root-typed identifier with root false
is a validation error. -/
def parseProperty (fuel : ℕ) (data : List Char) (root : Bool) (st : St) :
    Except PErr ((String × PyVal) × St) :=
  match parsePropIdent data st with
  | .error e => .error e
  | .ok pr =>
    let propident := pr.1
    let st1 := pr.2
    let useList :=
      match properties propident with
      | Option.none => true
      | some entry => entry.valuetype.contains "list"
    match (if useList then parsePropValueList fuel data propident st1
           else parsePropValue data propident st1) with
    | .error e => .error e
    | .ok pv =>
      let propvalue := pv.1
      let st2 := pv.2
      match properties propident with
      | some entry =>
        if entry.type = "root" && !root then
          .error (.validationError st2.pos
            ("Illegal root-property " ++ propident ++ " in non-root node")
            (context data st2.pos))
        else
          .ok ((propident, propvalue), st2)
      | Option.none => .ok ((propident, propvalue), st2)

/-- The property loop of parseNode (lines 180-200). The guard applies the
active identifier regex to the sentinel returned by nextToken: at end of
data that sentinel is None and re.match raises TypeError. Otherwise the
guard holds iff the peeked character is in the active class. A repeated
identifier raises the duplicate-property validation error; then FF stores
its value in self.ff, range-checks it with Python 2 chained comparison
against 1 and 4, and on equality with 4 switches self.propid_re to the
strict regex; GM stores its value in self.gm. -/
def parseNodeLoop :
    ℕ → List Char → Bool → Node → St → Except PErr (Node × St)
  | 0, _, _, _, _ => .error .outOfFuel
  | fuel + 1, data, root, props, st =>
    let tok := (nextToken data st).1
    let st1 := (nextToken data st).2
    match tok with
    | Option.none => .error (.typeError ("expected string or buffer"))
    | some c =>
      if pidClass st1.sess.propid_re c then
        match parseProperty fuel data root st1 with
        | .error e => .error e
        | .ok pv =>
          let propident := pv.1.1
          let propvalue := pv.1.2
          let st2 := pv.2
          if (lookupN props propident).isSome then
            .error (.validationError st2.pos
              ("Duplicate property in the same node") (context data st2.pos))
          else
            let props2 := props ++ [(propident, propvalue)]
            if propident = "FF" then
              let st3 : St := { st2 with sess := { st2.sess with ff := propvalue } }
              if !(pyGeOne propvalue && pyLeFour propvalue) then
                .error (.validationError st3.pos
                  ("Illegal value for FF property. Should be number in range 1-4")
                  (context data st3.pos))
              else
                let st4 : St :=
                  if pyEqFour propvalue then
                    { st3 with sess := { st3.sess with propid_re := PidMode.strict } }
                  else st3
                parseNodeLoop fuel data root props2 st4
            else if propident = "GM" then
              parseNodeLoop fuel data root props2
                { st2 with sess := { st2.sess with gm := propvalue } }
            else
              parseNodeLoop fuel data root props2 st2
      else
        .ok (props, st1)

/-- parseNode (lines 174-201): expect a semicolon, then the property
loop starting from an empty dictionary. -/
def parseNode (fuel : ℕ) (data : List Char) (root : Bool) (st : St) :
    Except PErr (Node × St) :=
  let tok := (nextToken data st).1
  let st1 := (nextToken data st).2
  if tok ≠ some ';' then
    let tok2 := (nextToken data st1).1
    let st2 := (nextToken data st1).2
    .error (.parseError st1.pos (";") tok2 (context data st2.pos))
  else
    parseNodeLoop fuel data root [] { st1 with pos := st1.pos + 1 }

/-- The node loop of parseSequence (lines 162-172): parse nodes while the
peeked token is a semicolon or no node has been parsed yet; only the first
node of the sequence receives the incoming root flag. -/
def parseSeqLoop :
    ℕ → List Char → Bool → List Node → St → Except PErr (List Node × St)
  | 0, _, _, _, _ => .error .outOfFuel
  | fuel + 1, data, root, nodes, st =>
    let tok := (nextToken data st).1
    let st1 := (nextToken data st).2
    if tok = some ';' || nodes.isEmpty then
      match parseNode fuel data (root && nodes.isEmpty) st1 with
      | .error e => .error e
      | .ok pr => parseSeqLoop fuel data root (nodes ++ [pr.1]) pr.2
    else
      .ok (nodes, st1)

/-- parseSequence (lines 162-172). -/
def parseSequence (fuel : ℕ) (data : List Char) (root : Bool) (st : St) :
    Except PErr (List Node × St) :=
  parseSeqLoop fuel data root [] st

/-- The two mutually recursive pieces of parseGameTree (lines 136-160) in
one fuel-indexed function: task one is a parseGameTree call, task many is
its subtree while-loop. The one task always produces the left summand and
many the right; the two cross branches are unreachable and padded with
outOfFuel. -/
inductive GTask where
  | one (root : Bool)
  | many (acc : List GameTree)

def parseGTAux :
    ℕ → List Char → GTask → St → Except PErr ((GameTree ⊕ List GameTree) × St)
  | 0, _, _, _ => .error .outOfFuel
  | fuel + 1, data, .one root, st =>
    let tok := (nextToken data st).1
    let st1 := (nextToken data st).2
    if tok ≠ some '(' then
      -- line 139
      let tok2 := (nextToken data st1).1
      let st2 := (nextToken data st1).2
      .error (.parseError st1.pos ("(") tok2 (context data st2.pos))
    else
      let st2 : St := { st1 with pos := st1.pos + 1 }
      match parseSequence fuel data root st2 with
      | .error e => .error e
      | .ok sq =>
        match parseGTAux fuel data (.many []) sq.2 with
        | .error e => .error e
        | .ok r =>
          match r.1 with
          | .inr subtrees =>
            -- line 156: the loop ended on a closing parenthesis, skip it
            let st5 : St := { r.2 with pos := r.2.pos + 1 }
            if subtrees.isEmpty then
              .ok (.inl (GameTree.seqOnly sq.1), st5)
            else
              .ok (.inl (GameTree.withSubs sq.1 subtrees), st5)
          | .inl _ => .error .outOfFuel
  | fuel + 1, data, .many acc, st =>
    let tok := (nextToken data st).1
    let st1 := (nextToken data st).2
    if tok ≠ some ')' then
      match parseGTAux fuel data (.one false) st1 with
      | .error e => .error e
      | .ok r =>
        match r.1 with
        | .inl t => parseGTAux fuel data (.many (acc ++ [t])) r.2
        | .inr _ => .error .outOfFuel
    else
      .ok (.inr acc, st1)

/-- parseGameTree (lines 136-160). -/
def parseGameTree (fuel : ℕ) (data : List Char) (root : Bool) (st : St) :
    Except PErr (GameTree × St) :=
  match parseGTAux fuel data (.one root) st with
  | .error e => .error e
  | .ok r =>
    match r.1 with
    | .inl t => .ok (t, r.2)
    | .inr _ => .error .outOfFuel

/-- The loop of parseCollection (lines 116-134): while the peeked token is
not the end sentinel, or nothing has been parsed yet, reset the session
attributes to their defaults and parse one game tree with root true. -/
def parseCollectionLoop :
    ℕ → List Char → List GameTree → St → Except PErr (List GameTree × St)
  | 0, _, _, _ => .error .outOfFuel
  | fuel + 1, data, collection, st =>
    let tok := (nextToken data st).1
    let st1 := (nextToken data st).2
    if tok ≠ Option.none || collection.isEmpty then
      let st2 : St := { st1 with sess := defaultSession }
      match parseGameTree fuel data true st2 with
      | .error e => .error e
      | .ok pr => parseCollectionLoop fuel data (collection ++ [pr.1]) pr.2
    else
      .ok (collection, st1)

/-- parseCollection (lines 116-134). -/
def parseCollection (fuel : ℕ) (data : List Char) (st : St) :
    Except PErr (List GameTree × St) :=
  parseCollectionLoop fuel data [] st

/-- parse (lines 83-102): set the data and cursor and run parseCollection,
returning its collection. The fuel bound 2 * length + 8 covers the call
depth of this grammar, every recursive step of which consumes input. -/
def parse (data : List Char) : Except PErr (List GameTree) :=
  (parseCollection (2 * data.length + 8) data ⟨0, defaultSession⟩).map (fun r => r.1)

/-- parseFile (lines 66-81) over an abstract file system (path to optional
content): an unreadable path hits the IOError handler, which logs and
falls off the end of the function, returning Python None; a parse or
validation error is logged and re-raised (line 81). -/
def parseFile (fs : String → Option String) (path : String) :
    Except PErr (Option (List GameTree)) :=
  match fs path with
  | Option.none => .ok Option.none
  | some sgf =>
    match parse sgf.data with
    | .error e => .error e
    | .ok c => .ok (some c)

/-- The loop of parseFiles (lines 59-64): games.extend(self.parseFile
(path)). Extending by the None that parseFile returns for an unreadable
file raises TypeError; a re-raised parse error propagates out of the
loop. -/
def parseFilesLoop (fs : String → Option String) :
    List String → List GameTree → Except PErr (List GameTree)
  | [], games => .ok games
  | path :: rest, games =>
    match parseFile fs path with
    | .error e => .error e
    | .ok Option.none => .error (.typeError ("NoneType object is not iterable"))
    | .ok (some c) => parseFilesLoop fs rest (games ++ c)

/-- parseFiles (lines 59-64). -/
def parseFiles (fs : String → Option String) (pathlist : List String) :
    Except PErr (List GameTree) :=
  parseFilesLoop fs pathlist []

/-! Claim-level predicates and sample inputs. -/

/-- Numeric (a Python int or float) and in the closed range [1,4]: the
property the specification asserts of an accepted FF value. -/
def numericInRange14 : PyVal → Bool
  | .int n => decide (1 ≤ n ∧ n ≤ 4)
  | .float q => decide (1 ≤ q ∧ q ≤ 4)
  | .str _ => false
  | .pyNone => false

/-- Shape of a returned game tree: a 1-tuple carries a non-empty sequence;
a 2-tuple carries a non-empty sequence, a non-empty subtree list, and
well-shaped subtrees. -/
inductive GTwfP : GameTree → Prop
  | seqOnly (seq : List Node) (h : seq ≠ []) : GTwfP (GameTree.seqOnly seq)
  | withSubs (seq : List Node) (subs : List GameTree) (h1 : seq ≠ [])
      (h2 : subs ≠ []) (h3 : ∀ t ∈ subs, GTwfP t) :
      GTwfP (GameTree.withSubs seq subs)

/-- A two-file batch: the first file holds unparseable content, the second
a well-formed document. -/
def fsC9 : String → Option String := fun p =>
  if p = "one.sgf" then some "x"
  else if p = "two.sgf" then some "(;)"
  else Option.none

/-! Auxiliary lemmas. -/

theorem lookupN_append_single (props : Node) (k key : String) (v : PyVal) :
    lookupN (props ++ [(k, v)]) key =
      match lookupN props key with
      | some w => some w
      | Option.none => if k = key then some v else Option.none := by
  induction props with
  | nil => simp [lookupN]
  | cons p r ih =>
    obtain ⟨a, b⟩ := p
    by_cases hak : a = key
    · simp [lookupN, hak]
    · simp [lookupN, hak, ih]

theorem nextToken_sess (data : List Char) (st : St) :
    ((nextToken data st).2).sess = st.sess := rfl

theorem parsePropValue_sess {data : List Char} {vt : String} {st : St}
    {r : PyVal × St} (h : parsePropValue data vt st = .ok r) :
    r.2.sess = st.sess := by
  simp only [parsePropValue] at h
  split at h
  · exact absurd h (by simp)
  · split at h
    · split at h
      · cases h; rfl
      · split at h
        · cases h; rfl
        · split at h
          · cases h; rfl
          · split at h
            · cases h; rfl
            · split at h
              · cases h; rfl
              · split at h
                · exact absurd h (by simp)
                · cases h; rfl
    · exact absurd h (by simp)

theorem parsePropIdent_sess {data : List Char} {st : St} {r : String × St}
    (h : parsePropIdent data st = .ok r) : r.2.sess = st.sess := by
  simp only [parsePropIdent] at h
  split at h
  · exact absurd h (by simp)
  · cases h; rfl

theorem parsePropValueListLoop_sess :
    ∀ fuel data vt pvs st r,
      parsePropValueListLoop fuel data vt pvs st = .ok r → r.2.sess = st.sess := by
  intro fuel
  induction fuel with
  | zero =>
    intro data vt pvs st r h
    exact absurd h (by simp [parsePropValueListLoop])
  | succ n ih =>
    intro data vt pvs st r h
    simp only [parsePropValueListLoop] at h
    split at h
    · split at h
      · exact absurd h (by simp)
      · rename_i pv heq
        have h1 := parsePropValue_sess heq
        have h2 := ih data vt pvs _ r h
        rw [h2, h1]
        rfl
    · cases h; rfl

theorem parseProperty_sess {fuel : ℕ} {data : List Char} {root : Bool} {st : St}
    {r : (String × PyVal) × St} (h : parseProperty fuel data root st = .ok r) :
    r.2.sess = st.sess := by
  simp only [parseProperty] at h
  split at h
  · exact absurd h (by simp)
  · rename_i pr hpi
    split at h
    · exact absurd h (by simp)
    · rename_i pv hval
      have hv2 : pv.2.sess = pr.2.sess := by
        split at hval
        · simp only [parsePropValueList] at hval
          exact parsePropValueListLoop_sess _ _ _ _ _ _ hval
        · exact parsePropValue_sess hval
      have hv1 : pr.2.sess = st.sess := parsePropIdent_sess hpi
      split at h
      · split at h
        · exact absurd h (by simp)
        · cases h
          rw [hv2, hv1]
      · cases h
        rw [hv2, hv1]

theorem ffChain_eq_numeric (v : PyVal) :
    (pyGeOne v && pyLeFour v) = numericInRange14 v := by
  cases v with
  | int n =>
    by_cases h1 : 1 ≤ n <;> by_cases h2 : n ≤ 4 <;>
      simp [pyGeOne, pyLeFour, numericInRange14, h1, h2]
  | float q =>
    by_cases h1 : 1 ≤ q <;> by_cases h2 : q ≤ 4 <;>
      simp [pyGeOne, pyLeFour, numericInRange14, h1, h2]
  | str s => simp [pyGeOne, pyLeFour, numericInRange14]
  | pyNone => simp [pyGeOne, pyLeFour, numericInRange14]

theorem skipWs_at_length (data : List Char) : skipWs data data.length = data.length := by
  simp [skipWs, runLen, List.drop_length]

theorem charAt_length (data : List Char) : charAt data data.length = Option.none := by
  simp [charAt]

theorem skipWs_all (data : List Char) (h : data.all isSpaceCh = true) :
    skipWs data 0 = data.length := by
  simp only [skipWs, runLen, List.drop_zero, Nat.zero_add]
  induction data with
  | nil => rfl
  | cons c r ih =>
    simp only [List.all_cons, Bool.and_eq_true] at h
    simp [List.takeWhile, h.1, ih h.2]

theorem parseSeqLoop_ne_nil :
    ∀ fuel data root nodes st r,
      parseSeqLoop fuel data root nodes st = .ok r → r.1 ≠ [] := by
  intro fuel
  induction fuel with
  | zero =>
    intro data root nodes st r h
    exact absurd h (by simp [parseSeqLoop])
  | succ n ih =>
    intro data root nodes st r h
    simp only [parseSeqLoop] at h
    split at h
    · split at h
      · exact absurd h (by simp)
      · exact ih data root _ _ r h
    · rename_i hguard
      cases h
      simp only [Bool.or_eq_true, not_or] at hguard
      intro hnil
      have hnil2 : nodes = [] := hnil
      rw [hnil2] at hguard
      simp at hguard

theorem parseCollectionLoop_ne_nil :
    ∀ fuel data acc st r,
      parseCollectionLoop fuel data acc st = .ok r → r.1 ≠ [] := by
  intro fuel
  induction fuel with
  | zero =>
    intro data acc st r h
    exact absurd h (by simp [parseCollectionLoop])
  | succ n ih =>
    intro data acc st r h
    simp only [parseCollectionLoop] at h
    split at h
    · split at h
      · exact absurd h (by simp)
      · exact ih data _ _ r h
    · rename_i hguard
      cases h
      simp only [Bool.or_eq_true, not_or] at hguard
      intro hnil
      have hnil2 : acc = [] := hnil
      rw [hnil2] at hguard
      simp at hguard

theorem parseNodeLoop_FF :
    ∀ fuel data root props st node stf,
      parseNodeLoop fuel data root props st = .ok (node, stf) →
      (∀ v, lookupN props "FF" = some v →
        numericInRange14 v = true ∧
          (pyEqFour v = true → st.sess.propid_re = PidMode.strict)) →
      ∀ v, lookupN node "FF" = some v →
        numericInRange14 v = true ∧
          (pyEqFour v = true → stf.sess.propid_re = PidMode.strict) := by
  intro fuel
  induction fuel with
  | zero =>
    intro data root props st node stf h _
    exact absurd h (by simp [parseNodeLoop])
  | succ n ih =>
    intro data root props st node stf h hinv
    simp only [parseNodeLoop] at h
    split at h
    · exact absurd h (by simp)
    · rename_i c htok
      split at h
      · rename_i hpc
        split at h
        · exact absurd h (by simp)
        · rename_i pv hpp
          have hsess : pv.2.sess = st.sess := by
            have h1 := parseProperty_sess hpp
            rw [h1]
            rfl
          split at h
          · exact absurd h (by simp)
          · rename_i hdup
            have hnone : lookupN props pv.1.1 = Option.none := by
              cases hx : lookupN props pv.1.1 with
              | none => rfl
              | some w => rw [hx] at hdup; simp at hdup
            split at h
            · rename_i hffid
              split at h
              · exact absurd h (by simp)
              · rename_i hrange
                have hchain : (pyGeOne pv.1.2 && pyLeFour pv.1.2) = true := by
                  cases hb : (pyGeOne pv.1.2 && pyLeFour pv.1.2)
                  · rw [hb] at hrange; simp at hrange
                  · rfl
                rw [ffChain_eq_numeric] at hchain
                refine ih data root _ _ node stf h ?_
                intro w hw
                rw [lookupN_append_single] at hw
                rw [hffid] at hnone
                rw [hnone, hffid, if_pos rfl] at hw
                have hw2 : pv.1.2 = w := by
                  injection hw
                subst hw2
                refine ⟨hchain, ?_⟩
                intro heq4
                simp [heq4]
            · rename_i hffne
              have hcarry : ∀ stn : St, stn.sess.propid_re = st.sess.propid_re →
                  (∀ w, lookupN (props ++ [(pv.1.1, pv.1.2)]) "FF" = some w →
                    numericInRange14 w = true ∧
                      (pyEqFour w = true → stn.sess.propid_re = PidMode.strict)) := by
                intro stn hstn w hw
                rw [lookupN_append_single] at hw
                cases hx : lookupN props "FF" with
                | none =>
                  rw [hx, if_neg hffne] at hw
                  exact absurd hw (by simp)
                | some u =>
                  rw [hx] at hw
                  have hu : u = w := by injection hw
                  subst hu
                  have h2 := hinv u hx
                  exact ⟨h2.1, fun he => by rw [hstn]; exact h2.2 he⟩
              split at h
              · refine ih data root _ _ node stf h (hcarry _ ?_)
                show pv.2.sess.propid_re = st.sess.propid_re
                rw [hsess]
              · refine ih data root _ _ node stf h (hcarry _ ?_)
                show pv.2.sess.propid_re = st.sess.propid_re
                rw [hsess]
      · cases h
        intro v hv
        have h2 := hinv v hv
        exact ⟨h2.1, fun he => h2.2 he⟩

theorem parseNode_FF {fuel : ℕ} {data : List Char} {root : Bool} {st : St}
    {node : Node} {stf : St} (h : parseNode fuel data root st = .ok (node, stf)) :
    ∀ v, lookupN node "FF" = some v →
      numericInRange14 v = true ∧
        (pyEqFour v = true → stf.sess.propid_re = PidMode.strict) := by
  simp only [parseNode] at h
  split at h
  · exact absurd h (by simp)
  · exact parseNodeLoop_FF fuel data root [] _ node stf h
      (by intro v hv; exact absurd hv (by simp [lookupN]))

theorem parseGTAux_wf :
    ∀ fuel data task st r,
      parseGTAux fuel data task st = .ok r →
      (∀ root, task = .one root → ∀ t, r.1 = .inl t → GTwfP t) ∧
      (∀ acc, task = .many acc → (∀ t ∈ acc, GTwfP t) →
        ∀ l, r.1 = .inr l → ∀ t ∈ l, GTwfP t) := by
  intro fuel
  induction fuel with
  | zero =>
    intro data task st r h
    exact absurd h (by simp [parseGTAux])
  | succ n ih =>
    intro data task st r h
    cases task with
    | one root =>
      refine ⟨?_, ?_⟩
      · intro root2 _ t ht
        simp only [parseGTAux] at h
        split at h
        · exact absurd h (by simp)
        · split at h
          · exact absurd h (by simp)
          · rename_i sq hseq
            split at h
            · exact absurd h (by simp)
            · rename_i r1 hsub
              split at h
              · rename_i subtrees hinr
                have hseqne : sq.1 ≠ [] :=
                  parseSeqLoop_ne_nil n data root [] _ sq hseq
                have hsubs : ∀ u ∈ subtrees, GTwfP u :=
                  (ih data (.many []) sq.2 r1 hsub).2 [] rfl (by simp) subtrees hinr
                split at h
                · cases h
                  have ht2 : Sum.inl (GameTree.seqOnly sq.1) = Sum.inl t := ht
                  injection ht2 with ht3
                  subst ht3
                  exact GTwfP.seqOnly sq.1 hseqne
                · rename_i hnemp
                  cases h
                  have ht2 : Sum.inl (GameTree.withSubs sq.1 subtrees) = Sum.inl t := ht
                  injection ht2 with ht3
                  subst ht3
                  refine GTwfP.withSubs sq.1 subtrees hseqne ?_ hsubs
                  intro hn
                  rw [hn] at hnemp
                  simp at hnemp
              · exact absurd h (by simp)
      · intro acc2 hacc
        cases hacc
    | many acc =>
      refine ⟨?_, ?_⟩
      · intro root2 hr
        cases hr
      · intro acc2 hacc hwf l hl t ht
        injection hacc with h2
        subst h2
        simp only [parseGTAux] at h
        split at h
        · split at h
          · exact absurd h (by simp)
          · rename_i r1 hone
            split at h
            · rename_i t1 hinl
              have hwt1 : GTwfP t1 := (ih data (.one false) _ r1 hone).1 false rfl t1 hinl
              refine (ih data (.many (acc ++ [t1])) _ r h).2 (acc ++ [t1]) rfl ?_ l hl t ht
              intro x hx
              rcases List.mem_append.mp hx with h1 | h1
              · exact hwf x h1
              · rw [List.mem_singleton] at h1
                subst h1
                exact hwt1
            · exact absurd h (by simp)
        · cases h
          have hl2 : Sum.inr acc = Sum.inr l := hl
          injection hl2 with hl3
          subst hl3
          exact hwf t ht

theorem parseGameTree_wf {fuel : ℕ} {data : List Char} {root : Bool} {st : St}
    {r : GameTree × St} (h : parseGameTree fuel data root st = .ok r) :
    GTwfP r.1 := by
  simp only [parseGameTree] at h
  split at h
  · exact absurd h (by simp)
  · rename_i r0 hx
    split at h
    · rename_i t1 hinl
      cases h
      exact (parseGTAux_wf fuel data (.one root) st r0 hx).1 root rfl t1 hinl
    · exact absurd h (by simp)

theorem parseCollectionLoop_wf :
    ∀ fuel data acc st r,
      parseCollectionLoop fuel data acc st = .ok r →
      (∀ t ∈ acc, GTwfP t) → ∀ t ∈ r.1, GTwfP t := by
  intro fuel
  induction fuel with
  | zero =>
    intro data acc st r h _
    exact absurd h (by simp [parseCollectionLoop])
  | succ n ih =>
    intro data acc st r h hacc
    simp only [parseCollectionLoop] at h
    split at h
    · split at h
      · exact absurd h (by simp)
      · rename_i pr hgt
        refine ih data _ _ r h ?_
        intro t ht
        rcases List.mem_append.mp ht with h1 | h1
        · exact hacc t h1
        · rw [List.mem_singleton] at h1
          subst h1
          exact parseGameTree_wf hgt
    · cases h
      exact hacc

theorem parse_wf {data : List Char} {c : List GameTree} (h : parse data = .ok c) :
    ∀ t ∈ c, GTwfP t := by
  simp only [parse, parseCollection] at h
  cases hx : parseCollectionLoop (2 * data.length + 8) data [] ⟨0, defaultSession⟩ with
  | error e =>
    rw [hx] at h
    simp [Except.map] at h
  | ok r =>
    rw [hx] at h
    simp only [Except.map] at h
    cases h
    exact parseCollectionLoop_wf _ data [] _ r hx (by intro t ht; simp at ht)

theorem parse_ne_nil {data : List Char} {c : List GameTree} (h : parse data = .ok c) :
    c ≠ [] := by
  simp only [parse, parseCollection] at h
  cases hx : parseCollectionLoop (2 * data.length + 8) data [] ⟨0, defaultSession⟩ with
  | error e =>
    rw [hx] at h
    simp [Except.map] at h
  | ok r =>
    rw [hx] at h
    simp only [Except.map] at h
    cases h
    exact parseCollectionLoop_ne_nil _ data [] _ r hx

/-! Claim theorems. -/

/-- Claim C1 (confirmed): for every node parsed by parseNode, the single
value parsePropValue returns for an FF property must be numeric and in
the range [1,4] - on any successfully parsed node the stored FF value
satisfies numericInRange14, and a parsed FF value outside that set makes
the node parse raise the FF ValidationError of line 196; moreover when the
value equals 4 (Python equality, so also the float 4.0) the resulting
state's identifier regex is the strict uppercase-only one, which the
threaded state then uses for every later identifier match in the same
game tree. -/
theorem claim1_ff :
    (∀ fuel data root st node stf,
      parseNode fuel data root st = .ok (node, stf) →
      ∀ v, lookupN node "FF" = some v →
        numericInRange14 v = true ∧
          (pyEqFour v = true → stf.sess.propid_re = PidMode.strict)) ∧
    (∀ fuel data root props st c st1 v st2,
      nextToken data st = (some c, st1) →
      pidClass st1.sess.propid_re c = true →
      parseProperty fuel data root st1 = .ok (("FF", v), st2) →
      lookupN props "FF" = Option.none →
      numericInRange14 v = false →
      parseNodeLoop (fuel + 1) data root props st =
        .error (.validationError st2.pos
          ("Illegal value for FF property. Should be number in range 1-4")
          (context data st2.pos))) := by
  refine ⟨?_, ?_⟩
  · intro fuel data root st node stf h v hv
    exact parseNode_FF h v hv
  · intro fuel data root props st c st1 v st2 hnt hpc hpp hnone hnr
    have h1 : (nextToken data st).1 = some c := by rw [hnt]
    have h2 : (nextToken data st).2 = st1 := by rw [hnt]
    simp only [parseNodeLoop, h1, h2, hpc, hpp, hnone, if_true]
    simp only [Option.isSome_none, Bool.false_eq_true, if_false, if_pos rfl]
    rw [show (pyGeOne v && pyLeFour v) = false from (ffChain_eq_numeric v).trans hnr]
    simp

/-- Claim C1 witness: both parts at concrete inputs. The first is
instantiated on the node of "(;FF[4])" (value 4, strict mode in the
resulting state); the second on the node of "(;FF[5])" (value 5,
validation error). -/
theorem claim1_ff_witness :
    (numericInRange14 (PyVal.int 4) = true ∧
      (pyEqFour (PyVal.int 4) = true →
        (⟨7, ⟨PyVal.int 1, PyVal.int 4, "ISO-8859-1", PidMode.strict⟩⟩ : St).sess.propid_re =
          PidMode.strict)) ∧
    parseNodeLoop 31 (String.data "(;FF[5])") true [] ⟨2, defaultSession⟩ =
      .error (.validationError 7
        ("Illegal value for FF property. Should be number in range 1-4")
        (context (String.data "(;FF[5])") 7)) :=
  ⟨claim1_ff.1 30 (String.data "(;FF[4])") true ⟨1, defaultSession⟩
      [("FF", PyVal.int 4)] ⟨7, ⟨PyVal.int 1, PyVal.int 4, "ISO-8859-1", PidMode.strict⟩⟩
      rfl (PyVal.int 4) rfl,
    claim1_ff.2 30 (String.data "(;FF[5])") true [] ⟨2, defaultSession⟩ 'F'
      ⟨2, defaultSession⟩ (PyVal.int 5) ⟨7, defaultSession⟩ rfl rfl rfl rfl rfl⟩

/-- Claim C2 (confirmed): the parseCollection loop overwrites the whole
session state (game type 1, file format 1, charset ISO-8859-1, legacy
identifier regex) before parsing each entry, so the parsed collection is
independent of whatever session state is in force when an entry starts -
no later entry inherits FF/GM/charset/lexing state from an earlier one.
The closed conjunct exhibits this: the first entry of the sample input
switches the identifier regex to strict via FF[4], yet the second entry's
mixed-case identifier GgMm still lexes under the legacy regex. -/
theorem claim2_session_reset :
    (∀ fuel data p s1 s2 acc,
      (parseCollectionLoop fuel data acc ⟨p, s1⟩).map (fun r => r.1) =
        (parseCollectionLoop fuel data acc ⟨p, s2⟩).map (fun r => r.1)) ∧
    parse (String.data "(;FF[4])(;GgMm[1])") =
      .ok [GameTree.seqOnly [[("FF", PyVal.int 4)]],
        GameTree.seqOnly [[("GM", PyVal.int 1)]]] := by
  refine ⟨?_, ?_⟩
  · intro fuel data p s1 s2 acc
    cases fuel with
    | zero => rfl
    | succ n =>
      show Except.map _ (parseCollectionLoop (n + 1) data acc ⟨p, s1⟩) = _
      simp only [parseCollectionLoop, nextToken]
      split
      · rfl
      · rfl
  · rfl

/-- Claim C3 (confirmed): inside the property loop of parseNode, a parsed
property whose identifier is already a key of the node dictionary raises
the duplicate-property ValidationError of line 189 - the values are never
merged or overwritten, whatever the repeated value is. -/
theorem claim3_duplicate :
    ∀ fuel data root props st c st1 pid v st2,
      nextToken data st = (some c, st1) →
      pidClass st1.sess.propid_re c = true →
      parseProperty fuel data root st1 = .ok ((pid, v), st2) →
      (lookupN props pid).isSome = true →
      parseNodeLoop (fuel + 1) data root props st =
        .error (.validationError st2.pos ("Duplicate property in the same node")
          (context data st2.pos)) := by
  intro fuel data root props st c st1 pid v st2 hnt hpc hpp hdup
  have h1 : (nextToken data st).1 = some c := by rw [hnt]
  have h2 : (nextToken data st).2 = st1 := by rw [hnt]
  simp only [parseNodeLoop, h1, h2, hpc, hpp, hdup, if_true]

/-- Claim C3 witness: the second FF of "(;FF[4]FF[4])" carries a value
identical to the first and still raises the duplicate-property
ValidationError. -/
theorem claim3_duplicate_witness :
    parseNodeLoop 31 (String.data "(;FF[4]FF[4])") true [("FF", PyVal.int 4)]
      ⟨7, ⟨PyVal.int 1, PyVal.int 4, "ISO-8859-1", PidMode.strict⟩⟩ =
      .error (.validationError 12 ("Duplicate property in the same node")
        (context (String.data "(;FF[4]FF[4])") 12)) :=
  claim3_duplicate 30 (String.data "(;FF[4]FF[4])") true [("FF", PyVal.int 4)]
    ⟨7, ⟨PyVal.int 1, PyVal.int 4, "ISO-8859-1", PidMode.strict⟩⟩ 'F'
    ⟨7, ⟨PyVal.int 1, PyVal.int 4, "ISO-8859-1", PidMode.strict⟩⟩ "FF" (PyVal.int 4)
    ⟨12, ⟨PyVal.int 1, PyVal.int 4, "ISO-8859-1", PidMode.strict⟩⟩ rfl rfl rfl rfl

/-- Claim C4 (confirmed): a property whose schema entry is root-typed (AP,
CA, FF, GM, ST, SZ all are), parsed with the root flag false - which is
how parseSequence treats every node after the first and how parseGameTree
parses every variation subtree - raises the illegal-root-property
ValidationError of line 225 as soon as its value has been read. The two
closed conjuncts run this end to end: SZ on the second node of the main
sequence, and SZ on the first node of a variation subtree. -/
theorem claim4_root_only :
    (∀ fuel data st pid st1 entry v st2,
      parsePropIdent data st = .ok (pid, st1) →
      properties pid = some entry →
      entry.valuetype.contains "list" = false →
      entry.type = "root" →
      parsePropValue data pid st1 = .ok (v, st2) →
      parseProperty fuel data false st =
        .error (.validationError st2.pos
          ("Illegal root-property " ++ pid ++ " in non-root node")
          (context data st2.pos))) ∧
    parse (String.data "(;;SZ[9])") =
      .error (.validationError 8 ("Illegal root-property SZ in non-root node")
        (context (String.data "(;;SZ[9])") 8)) ∧
    parse (String.data "(;(;SZ[9]))") =
      .error (.validationError 9 ("Illegal root-property SZ in non-root node")
        (context (String.data "(;(;SZ[9]))") 9)) := by
  refine ⟨?_, rfl, rfl⟩
  intro fuel data st pid st1 entry v st2 hpi hsch hlist htype hval
  simp only [parseProperty, hpi, hsch, hlist, hval, htype]
  simp

/-- Claim C4 witness: the general part instantiated on the input "SZ[9]"
parsed with root false from offset 0. -/
theorem claim4_root_only_witness :
    parseProperty 5 (String.data "SZ[9]") false ⟨0, defaultSession⟩ =
      .error (.validationError 5 ("Illegal root-property " ++ "SZ" ++ " in non-root node")
        (context (String.data "SZ[9]") 5)) :=
  claim4_root_only.1 5 (String.data "SZ[9]") ⟨0, defaultSession⟩ "SZ"
    ⟨2, defaultSession⟩ ⟨"root", ["number", "compose number:number"]⟩ (PyVal.int 9)
    ⟨5, defaultSession⟩ rfl rfl rfl rfl rfl

/-- Claim C5 (corrected): for the empty input, parse raises the expected
open-parenthesis SyntaxError at offset 0, and every successful parse
returns a non-empty collection; but for an all-whitespace input the error
is reported at the offset just past the skipped whitespace (the end of
the input), not at offset 0 - nextToken advances the cursor before
parseGameTree tests the peeked token. -/
theorem claim5_empty_input :
    parse [] = .error (.parseError 0 ("(") Option.none []) ∧
    (∀ data c, parse data = .ok c → c ≠ []) ∧
    (∀ data : List Char, data ≠ [] → data.all isSpaceCh = true →
      parse data = .error (.parseError data.length ("(") Option.none
        (context data data.length))) := by
  refine ⟨rfl, ?_, ?_⟩
  · intro data c h
    exact parse_ne_nil h
  · intro data hne hsp
    have h0 : skipWs data 0 = data.length := skipWs_all data hsp
    simp [parse, parseCollection, parseCollectionLoop, parseGameTree, parseGTAux,
      nextToken, h0, charAt_length, skipWs_at_length, Except.map]

/-- Claim C5 witness: the second conjunct instantiated on "(;)" and the
third on the two-space input. -/
theorem claim5_empty_input_witness :
    ([GameTree.seqOnly [[]]] : List GameTree) ≠ [] ∧
    parse [' ', ' '] = .error (.parseError 2 ("(") Option.none
      (context [' ', ' '] 2)) :=
  ⟨claim5_empty_input.2.1 (String.data "(;)") [GameTree.seqOnly [[]]] rfl,
    claim5_empty_input.2.2 [' ', ' '] (by decide) (by decide)⟩

/-- Claim C5 counterexample: the all-whitespace input of one space raises
its SyntaxError at offset 1 (just past the skipped whitespace), not at
offset 0 as claimed. -/
theorem claim5_counterexample :
    parse [' '] = .error (.parseError 1 ("(") Option.none [' ']) ∧ (1 : ℕ) ≠ 0 :=
  ⟨rfl, by decide⟩

/-- Claim C6 (corrected): "(;)" parses to one game tree holding a single
empty node, but that tree is the Python 1-tuple of its sequence, not a
pair with an empty child list - parseGameTree returns the bare (seq,)
when no subtrees were parsed (line 160) and a pair only when the subtree
list is non-empty. In general every returned tree has a non-empty
sequence and, when it is a pair, a non-empty list of well-shaped
subtrees. -/
theorem claim6_gametree_shape :
    parse (String.data "(;)") = .ok [GameTree.seqOnly [[]]] ∧
    (∀ data c, parse data = .ok c → ∀ t ∈ c, GTwfP t) := by
  refine ⟨rfl, ?_⟩
  intro data c h
  exact parse_wf h

/-- Claim C6 witness: the shape statement instantiated on the tree parsed
from "(;)". -/
theorem claim6_gametree_shape_witness :
    GTwfP (GameTree.seqOnly [[]]) :=
  claim6_gametree_shape.2 (String.data "(;)") [GameTree.seqOnly [[]]] rfl
    (GameTree.seqOnly [[]]) (by simp)

/-- Claim C6 counterexample: parsing "(;)" succeeds, but the returned
GameTree is the 1-tuple form, not a pair carrying an empty child list as
the claim states every returned GameTree to be. -/
theorem claim6_counterexample :
    parse (String.data "(;)") = .ok [GameTree.seqOnly [[]]] ∧
    GameTree.isPair (GameTree.seqOnly [[]]) = false :=
  ⟨rfl, rfl⟩

/-- Claim C7 (code bug): the value interpreter never raises the promised
no-kind-matches validation error. For GM - declared with only the number
kind - the non-numeric text x falls through every branch of parsePropValue
(the lowercase simpletext test can never match the class tuple's
simpleText spelling, and the always-true text branch lets the function
fall off its end), so the value is silently accepted as Python None and
the document parses successfully. -/
theorem claim7_value_fallthrough :
    parse (String.data "(;GM[x])") = .ok [GameTree.seqOnly [[("GM", PyVal.pyNone)]]] :=
  rfl

/-- Claim C8 (corrected): an unterminated bracketed value raises the
expected-close-bracket SyntaxError, but the reported position is
len(data) - 1, the index of the last character (line 286 subtracts one),
not the end of the input; the found token is the character at that
position after whitespace skipping. The closed conjunct runs "(;C[abc"
end to end. -/
theorem claim8_unterminated :
    (∀ data vt st st1,
      nextToken data st = (some '[', st1) →
      valueMatch data st1.pos = Option.none →
      parsePropValue data vt st =
        .error (.parseError (data.length - 1) ("]")
          (charAt data (skipWs data (data.length - 1)))
          (context data (skipWs data (data.length - 1))))) ∧
    parse (String.data "(;C[abc") =
      .error (.parseError 6 ("]") (some 'c') (String.data "(;C[abc")) := by
  refine ⟨?_, rfl⟩
  intro data vt st st1 hnt hvm
  have h1 : (nextToken data st).1 = some '[' := by rw [hnt]
  have h2 : (nextToken data st).2 = st1 := by rw [hnt]
  simp only [parsePropValue, h1, h2, hvm]
  simp [nextToken]

/-- Claim C8 witness: the general part instantiated at the value opening
at offset 3 of "(;C[abc". -/
theorem claim8_unterminated_witness :
    parsePropValue (String.data "(;C[abc") "C" ⟨3, defaultSession⟩ =
      .error (.parseError 6 ("]")
        (charAt (String.data "(;C[abc") (skipWs (String.data "(;C[abc") 6))
        (context (String.data "(;C[abc") (skipWs (String.data "(;C[abc") 6))) :=
  claim8_unterminated.1 (String.data "(;C[abc") "C" ⟨3, defaultSession⟩
    ⟨3, defaultSession⟩ rfl rfl

/-- Claim C8 counterexample: for "(;C[abc" the SyntaxError position is 6,
the index of the last character, while end of input is offset 7. -/
theorem claim8_counterexample :
    parse (String.data "(;C[abc") =
      .error (.parseError 6 ("]") (some 'c') (String.data "(;C[abc")) ∧
    (6 : ℕ) ≠ (String.data "(;C[abc").length :=
  ⟨rfl, by decide⟩

/-- Claim C9 (corrected): a parse or validation failure in one file is
re-raised by parseFile (line 81) and aborts the whole batch; only an
unreadable file is caught, and then parseFile returns None, which makes
parseFiles raise TypeError when it extends its result list by None. The
batch never continues past a failing file. -/
theorem claim9_batch_abort :
    (∀ fs p rest games e, parseFile fs p = .error e →
      parseFilesLoop fs (p :: rest) games = .error e) ∧
    (∀ fs p rest games, fs p = Option.none →
      parseFilesLoop fs (p :: rest) games =
        .error (.typeError ("NoneType object is not iterable"))) := by
  refine ⟨?_, ?_⟩
  · intro fs p rest games e h
    simp only [parseFilesLoop, h]
  · intro fs p rest games h
    simp only [parseFilesLoop, parseFile, h]

/-- Claim C9 witness: both parts on the concrete two-file batch fsC9. -/
theorem claim9_batch_abort_witness :
    parseFilesLoop fsC9 ["one.sgf", "two.sgf"] [] =
      .error (.parseError 0 ("(") (some 'x') ['x']) ∧
    parseFilesLoop fsC9 ["absent.sgf"] [] =
      .error (.typeError ("NoneType object is not iterable")) :=
  ⟨claim9_batch_abort.1 fsC9 "one.sgf" ["two.sgf"] []
      (.parseError 0 ("(") (some 'x') ['x']) rfl,
    claim9_batch_abort.2 fsC9 "absent.sgf" [] [] rfl⟩

/-- Claim C9 counterexample: in a two-file batch whose first file fails to
parse, parseFiles propagates that failure and never returns the second
file's collection, although that file on its own parses fine. -/
theorem claim9_counterexample :
    parseFiles fsC9 ["one.sgf", "two.sgf"] =
      .error (.parseError 0 ("(") (some 'x') ['x']) ∧
    parse (String.data "(;)") = .ok [GameTree.seqOnly [[]]] :=
  ⟨rfl, rfl⟩

/-- Claim C10 (confirmed): on the input "(;" the property loop of
parseNode applies the active identifier regex to the end-of-input
sentinel None returned by nextToken, so parsing ends in an unhandled
TypeError instead of an SGFParseError or SGFValidationError. -/
theorem claim10_match_none_typeerror :
    parse (String.data "(;") = .error (.typeError ("expected string or buffer")) :=
  rfl

end SGF
